import Mathlib

/-!
Verification of the subctl agent-monitoring core against its source.

The repository has two variants of the orchestrator: the packaged module
(src/subctl/orchestrator.py with src/subctl/models.py and src/subctl/cli.py)
and a legacy standalone script (src/subctl.py).  This file gives a shallow
embedding of the data model and of the operations under scrutiny, and
proves theorems about that embedding.

Modelling conventions:
* Timestamps (Python datetime, read at seconds precision per the spec) are
  modelled as a count of seconds, a natural number; the textual ISO-8601
  form is modelled as the decimal rendering of that count, which is
  bijective at seconds precision.
* Python float arithmetic is modelled exactly, with rationals.
* JSON payloads are modelled by an explicit Json value type; the string
  layer produced by json.dumps and consumed by json.loads is abstracted: a
  store response carries the parsed Json value, or an explicit marker for
  a raised store error, an absent value, or a payload json.loads rejects.
* Printing to the rich console is modelled by returning the list of
  printed diagnostic lines alongside each result.
* Dynamic construction of a dataclass from a decoded JSON object
  (AgentInfo(**value) in both get_all_agents variants) is embedded
  twice.  The Dynamic namespace reproduces the execution exactly: the
  constructor performs no type validation, so only a missing key, an
  unexpected key or a malformed textual last_update raise, and a
  mistyped field value is stored as given.  parseAgentInfo is the typed
  restriction of the same loop body, following the decoding rules of
  spec section 4.1 (a field not matching its annotated type also counts
  as a failure); it agrees with the execution on well-typed payloads,
  and the codec theorems live on those.
-/

namespace Subctl

/-- JSON values as json.loads yields them: null, booleans, numbers
(modelled as rationals), strings, arrays and objects (key order kept, as
Python dicts keep insertion order). -/
inductive Json where
  | null
  | bool (b : Bool)
  | num (q : ℚ)
  | str (s : String)
  | arr (elems : List Json)
  | obj (fields : List (String × Json))

/-- Whether a JSON value is an object; mirrors isinstance(value, dict) in
both get_all_agents variants. -/
def Json.isObj : Json → Bool
  | .obj _ => true
  | _ => false

/-- Python truthiness of a decoded JSON value (bool(x)): None, False, 0,
and empty strings, lists and dicts are falsy. -/
def Json.truthy : Json → Bool
  | .null => false
  | .bool b => b
  | .num q => decide (q ≠ 0)
  | .str s => !s.isEmpty
  | .arr xs => !xs.isEmpty
  | .obj fs => !fs.isEmpty

/-- The AgentInfo dataclass of src/subctl/models.py (same shape in
src/subctl.py).  last_update is a datetime, modelled as seconds. -/
structure AgentInfo where
  session_key : String
  label : String
  channel : String
  total_tokens : Int
  status : String
  last_update : Nat
  assigned_tickets : List String
  package_compliance : ℚ
  custom_code_ratio : ℚ
  consensus_proof : Option String
deriving Repr, DecidableEq

/-- The AgentEvent dataclass of src/subctl/models.py (same shape in
src/subctl.py).  The producer-defined data payload is an arbitrary
string-keyed mapping. -/
structure AgentEvent where
  session_key : String
  event_type : String
  timestamp : Nat
  data : List (String × Json)
  cryptographic_hash : String

/-- A value of the mapping get_all_agents returns.  The source converts a
dict value into an AgentInfo but stores any non-dict value unchanged
(result[key] = value), so the returned mapping is heterogeneous. -/
inductive SnapshotEntry where
  | record (a : AgentInfo)
  | raw (j : Json)

/-- The snapshot as returned: a label-keyed mapping in insertion order. -/
abbrev Snapshot := List (String × SnapshotEntry)

/-! ### The textual timestamp codec

datetime.isoformat / datetime.fromisoformat at the model granularity:
a timestamp is its count of seconds, and its textual form is the decimal
rendering of that count.  The pair is proved to round-trip exactly, which
is the content the spec asks of the textual form at seconds precision. -/

/-- The character for one decimal digit. -/
def digitChar (d : Nat) : Char := Char.ofNat (48 + d)

/-- The decimal digit a character stands for. -/
def charDigitVal (c : Char) : Nat := c.toNat - 48

/-- Whether a character is a decimal digit. -/
def isDigitChar (c : Char) : Bool := decide (48 ≤ c.toNat) && decide (c.toNat ≤ 57)

/-- Modelled from the spec: the textual (ISO-8601 at seconds precision)
form of a timestamp, as the producer writes it and datetime.isoformat
renders it; modelled as the decimal rendering of the seconds count. -/
def isoformat (t : Nat) : String :=
  if t = 0 then "0" else String.mk (((Nat.digits 10 t).reverse).map digitChar)

/-- datetime.fromisoformat at the model granularity: parses the decimal
seconds text back into a timestamp; any other string raises (none). -/
def fromisoformat (s : String) : Option Nat :=
  if !s.data.isEmpty && s.data.all isDigitChar then
    some (Nat.ofDigits 10 ((s.data.map charDigitVal).reverse))
  else
    none

/-! ### The record codec

Decoding one per-agent JSON object into an AgentInfo, as the loop body of
get_all_agents does: first the explicit conversion of a textual
last_update with datetime.fromisoformat, then AgentInfo(**value), which
fails on a missing or unexpected key; per the typed decoding rules of
spec section 4.1, a field not matching its annotated type is also a parse
failure. -/

/-- A string field of the record. -/
def Json.asStr : Json → Option String
  | .str s => some s
  | _ => none

/-- An integer field of the record (a JSON number with denominator 1). -/
def Json.asInt : Json → Option Int
  | .num q => if q.den = 1 then some q.num else none
  | _ => none

/-- A fractional field of the record. -/
def Json.asNum : Json → Option ℚ
  | .num q => some q
  | _ => none

/-- A list-of-strings field of the record. -/
def strListOf : List Json → Option (List String)
  | [] => some []
  | x :: xs => do
      let s ← x.asStr
      let rest ← strListOf xs
      pure (s :: rest)

/-- The assigned_tickets field: a JSON array of strings. -/
def Json.asStrList : Json → Option (List String)
  | .arr xs => strListOf xs
  | _ => none

/-- The optional consensus_proof field: null or a string. -/
def Json.asOptStr : Json → Option (Option String)
  | .null => some none
  | .str s => some (some s)
  | _ => none

/-- The field names of the AgentInfo dataclass; a key outside this list
makes AgentInfo(**value) raise TypeError. -/
def agentInfoFieldNames : List String :=
  ["session_key", "label", "channel", "total_tokens", "status", "last_update",
   "assigned_tickets", "package_compliance", "custom_code_ratio", "consensus_proof"]

/-- Decoding one per-agent JSON object into a typed AgentInfo: the body
of the isinstance(value, dict) branch of get_all_agents, under the typed
reading of spec section 4.1.  last_update must be textual and is parsed
with fromisoformat; every other field is taken typed; a missing or
unknown key or a mistyped field is a failure (none), which the caller
turns into an abort of the whole decode.  Note the execution itself
checks no types — AgentInfo(**value) stores a mistyped value as given;
the execution-exact embedding is Dynamic.parseAgentInfo below, and the
two agree wherever every field is well typed. -/
def parseAgentInfo (fields : List (String × Json)) : Option AgentInfo :=
  if fields.all (fun kv => agentInfoFieldNames.contains kv.1) then
    ((fields.lookup "session_key").bind Json.asStr).bind fun session_key =>
    ((fields.lookup "label").bind Json.asStr).bind fun label =>
    ((fields.lookup "channel").bind Json.asStr).bind fun channel =>
    ((fields.lookup "total_tokens").bind Json.asInt).bind fun total_tokens =>
    ((fields.lookup "status").bind Json.asStr).bind fun status =>
    (((fields.lookup "last_update").bind Json.asStr).bind fromisoformat).bind fun last_update =>
    ((fields.lookup "assigned_tickets").bind Json.asStrList).bind fun assigned_tickets =>
    ((fields.lookup "package_compliance").bind Json.asNum).bind fun package_compliance =>
    ((fields.lookup "custom_code_ratio").bind Json.asNum).bind fun custom_code_ratio =>
    ((fields.lookup "consensus_proof").bind Json.asOptStr).bind fun consensus_proof =>
    some { session_key, label, channel, total_tokens, status, last_update,
           assigned_tickets, package_compliance, custom_code_ratio, consensus_proof }
  else
    none

/-- The decode loop of get_all_agents over the items of the snapshot
object: a dict value is converted into an AgentInfo (aborting everything
on a parse failure, as the raised exception leaves the loop), and any
other value is stored unchanged. -/
def decodeEntries : List (String × Json) → Option Snapshot
  | [] => some []
  | (key, value) :: rest =>
      match value with
      | .obj fs =>
          match parseAgentInfo fs with
          | some a => (decodeEntries rest).map (fun es => (key, .record a) :: es)
          | none => none
      | _ => (decodeEntries rest).map (fun es => (key, .raw value) :: es)

/-! ### The store boundary -/

/-- A store-level failure raised by the redis client. -/
inductive StoreErr where
  | connectionRefused
  | timeout
  | other (text : String)

/-- The message text of a store-level failure (str(e) in the source's
diagnostic f-strings). -/
def StoreErr.msg : StoreErr → String
  | .connectionRefused => "Connection refused"
  | .timeout => "Timeout"
  | .other text => text

/-- What one read of the key subctl:agents can yield, with the string
layer abstracted: the client raises a store error; the key is absent (or
holds a falsy empty string, skipping the body of the if); the returned
string is rejected by json.loads; or json.loads yields the value j. -/
inductive FetchResp where
  | err (e : StoreErr)
  | absent
  | badPayload (emsg : String)
  | payload (j : Json)

/-- The diagnostic line get_all_agents of src/subctl/orchestrator.py
prints when its try body raises. -/
def readDiag (emsg : String) : String :=
  "[red]Error reading from Redis: " ++ emsg ++ "[/red]"

/-- Message text of the exception raised when a per-agent entry fails to
decode inside the loop (ValueError, TypeError or KeyError; the exact text
of the Python exception is abstracted). -/
def decodeErrMsg : String := "agent entry failed to decode"

/-- Message text of the AttributeError raised by raw_data.items() when
the decoded payload is not an object. -/
def itemsErrMsg : String := "items: payload is not a mapping"

/-- The per-label event log store: for each key, the list redis keeps
(most recent first) and the expiry last set on the key. -/
structure EventStore where
  lists : String → List Json
  ttl : String → Option Nat

/-- redis lpush: prepends a value to the list at a key. -/
def lpush (st : EventStore) (key : String) (v : Json) : EventStore :=
  { st with lists := fun k => if k = key then v :: st.lists k else st.lists k }

/-- redis expire: resets the time to live of a key. -/
def expire (st : EventStore) (key : String) (seconds : Nat) : EventStore :=
  { st with ttl := fun k => if k = key then some seconds else st.ttl k }

namespace Orchestrator

/-- get_all_agents of src/subctl/orchestrator.py: reads subctl:agents,
decodes the payload, and on any raise inside the try prints one
diagnostic and returns the empty mapping; an absent (falsy) payload also
yields the empty mapping, silently.  Returns the mapping and the printed
diagnostic lines. -/
def get_all_agents : FetchResp → Snapshot × List String
  | .err e => ([], [readDiag e.msg])
  | .absent => ([], [])
  | .badPayload emsg => ([], [readDiag emsg])
  | .payload (.obj fields) =>
      match decodeEntries fields with
      | some entries => (entries, [])
      | none => ([], [readDiag decodeErrMsg])
  | .payload _ => ([], [readDiag itemsErrMsg])

/-- get_active_agents of src/subctl/orchestrator.py, with the snapshot it
fetches and the wall clock instant datetime.now() made explicit: keeps
the entries that are AgentInfo instances whose age in minutes,
(now - last_update).total_seconds() / 60, is at most max_age_minutes
(default 10). -/
def get_active_agents (all_agents : Snapshot) (now : Nat)
    (max_age_minutes : Int := 10) : Snapshot :=
  all_agents.filter fun kv =>
    match kv.2 with
    | .record agent =>
        decide (((now : ℚ) - (agent.last_update : ℚ)) / 60 ≤ (max_age_minutes : ℚ))
    | .raw _ => false

/-- get_agent_info of src/subctl/orchestrator.py: a plain lookup in the
full mapping get_all_agents returns. -/
def get_agent_info (resp : FetchResp) (agent_label : String) : Option SnapshotEntry :=
  ((get_all_agents resp).1).lookup agent_label

/-- The serialization step json.dumps(asdict(event)) as it evaluates in
src/subctl/orchestrator.py: that module imports json, datetime, redis,
Console, AgentInfo and AgentEvent but never imports asdict (only
models.py does), so evaluating the argument raises NameError before any
store call is made. -/
def serialize_event (_event : AgentEvent) : Except String Json :=
  .error "name asdict is not defined"

/-- record_agent_event of src/subctl/orchestrator.py: serializes the
event, pushes it onto the head of the per-label list and resets the
expiry to 3600 seconds; any raise inside the try is caught and printed as
one diagnostic, so the caller is never aborted. -/
def record_agent_event (st : EventStore) (agent_label : String) (event : AgentEvent) :
    EventStore × List String :=
  let event_key := "subctl:events:" ++ agent_label
  match serialize_event event with
  | .ok j => (expire (lpush st event_key j) event_key 3600, [])
  | .error e => (st, ["[red]Error recording event: " ++ e ++ "[/red]"])

end Orchestrator

/-! ### The CLI rendering and inspection (src/subctl/cli.py) -/

/-- Severity of the rendered package-compliance cell: severe when the
cell is wrapped in red markup, warning when in yellow, neutral when
plain. -/
inductive ComplianceBand where
  | severe
  | warning
  | neutral
deriving Repr, DecidableEq

/-- The compliance cell of generate_agents_table: the formatted
percentage text, wrapped in red below 0.8 and in yellow below 0.95
(identical branches in src/subctl/cli.py and src/subctl.py). -/
def compliance_markup (package_compliance : ℚ) (base : String) : String :=
  if package_compliance < 0.8 then "[red]" ++ base ++ "[/red]"
  else if package_compliance < 0.95 then "[yellow]" ++ base ++ "[/yellow]"
  else base

/-- The severity band the same branches choose. -/
def complianceBand (package_compliance : ℚ) : ComplianceBand :=
  if package_compliance < 0.8 then .severe
  else if package_compliance < 0.95 then .warning
  else .neutral

/-- The markup a band puts around the cell text. -/
def ComplianceBand.wrap : ComplianceBand → String → String
  | .severe, base => "[red]" ++ base ++ "[/red]"
  | .warning, base => "[yellow]" ++ base ++ "[/yellow]"
  | .neutral, base => base

/-- The not-found line the inspect branch of main prints. -/
def notFoundMsg (agent_label : String) : String :=
  "[red]Agent " ++ agent_label ++ " not found[/red]"

/-- The identity block the inspect branch prints for a found agent
(number and date formatting abstracted as plain renderings). -/
def identityBlock (a : AgentInfo) : List String :=
  ["[bold]Agent: " ++ a.label ++ "[/bold]",
   "Status: " ++ a.status,
   "Tokens: " ++ toString a.total_tokens,
   "Package Compliance: " ++ toString a.package_compliance,
   "Last Update: " ++ isoformat a.last_update]

/-- The inspect branch of main in src/subctl/cli.py: looks the label up
with get_agent_info and tests the result for Python truthiness (if
agent_info:).  A found AgentInfo prints its identity block; an absent
label (None is falsy) prints the not-found line; a falsy raw value also
falls to the not-found line, while a truthy raw value would raise
AttributeError at agent_info.label.  The Except layer records whether
the branch raises. -/
def inspect_output (resp : FetchResp) (agent_label : String) :
    Except String (List String) :=
  match Orchestrator.get_agent_info resp agent_label with
  | some (.record a) => .ok (identityBlock a)
  | some (.raw j) =>
      if j.truthy then .error "AttributeError" else .ok [notFoundMsg agent_label]
  | none => .ok [notFoundMsg agent_label]

/-! ### The legacy standalone script (src/subctl.py) -/

namespace Legacy

/-- get_all_agents of src/subctl.py.  The decode inside the try is the
same as the packaged variant, but the except clause is a bare pass: no
diagnostic is printed, and control falls through to return self.agents,
the local cache, which also serves the absent-payload case.  The cache is
passed explicitly here. -/
def get_all_agents (cache : Snapshot) : FetchResp → Snapshot × List String
  | .err _ => (cache, [])
  | .absent => (cache, [])
  | .badPayload _ => (cache, [])
  | .payload (.obj fields) =>
      match decodeEntries fields with
      | some entries => (entries, [])
      | none => (cache, [])
  | .payload _ => (cache, [])

/-- get_agent_info of src/subctl.py: a lookup in the mapping its
get_all_agents returns. -/
def get_agent_info (cache : Snapshot) (resp : FetchResp) (agent_label : String) :
    Option SnapshotEntry :=
  ((get_all_agents cache resp).1).lookup agent_label

/-- The serialization step json.dumps(asdict(event)) as it evaluates in
src/subctl.py: asdict is imported there, but the dict it returns still
holds the datetime timestamp field, which json.dumps cannot serialize, so
every call raises TypeError before any store call is made. -/
def serialize_event (_event : AgentEvent) : Except String Json :=
  .error "Object of type datetime is not JSON serializable"

/-- record_agent_event of src/subctl.py: same shape as the packaged
variant, with its own serialization failure mode. -/
def record_agent_event (st : EventStore) (agent_label : String) (event : AgentEvent) :
    EventStore × List String :=
  let event_key := "subctl:events:" ++ agent_label
  match serialize_event event with
  | .ok j => (expire (lpush st event_key j) event_key 3600, [])
  | .error e => (st, ["[red]Error recording event: " ++ e ++ "[/red]"])

/-- The mutable state of the legacy SubCtlOrchestrator object: the local
cache self.agents (the redis clients are modelled at the FetchResp and
EventStore boundary). -/
structure State where
  agents : Snapshot

/-- The constructor of the legacy SubCtlOrchestrator: self.agents = an
empty dict. -/
def init : State := ⟨[]⟩

/-- One call of a method of the legacy orchestrator object, with the
store interaction it sees. -/
inductive Call where
  | getAll (resp : FetchResp)
  | getInfo (resp : FetchResp) (agent_label : String)
  | recordEvent (st : EventStore) (agent_label : String) (event : AgentEvent)

/-- The effect of one method call on the object state: no method of the
legacy class ever assigns self.agents (get_all_agents and get_agent_info
only read it, record_agent_event only touches the store), so the state is
untouched. -/
def step (s : State) : Call → State
  | .getAll _ => s
  | .getInfo _ _ => s
  | .recordEvent _ _ _ => s

/-- The object state after a sequence of method calls. -/
def runCalls (s : State) (calls : List Call) : State :=
  calls.foldl step s

end Legacy

/-! ### The producer-side snapshot encoding -/

/-- Modelled from the spec: the serialized per-agent field mapping an
external producer writes under subctl:agents (spec sections 3 and 6; the
repository holds only the decoder), with last_update rendered textually
at seconds precision and every other field passed through typed. -/
def encodeAgentInfoFields (a : AgentInfo) : List (String × Json) :=
  [("session_key", .str a.session_key),
   ("label", .str a.label),
   ("channel", .str a.channel),
   ("total_tokens", .num (a.total_tokens : ℚ)),
   ("status", .str a.status),
   ("last_update", .str (isoformat a.last_update)),
   ("assigned_tickets", .arr (a.assigned_tickets.map Json.str)),
   ("package_compliance", .num a.package_compliance),
   ("custom_code_ratio", .num a.custom_code_ratio),
   ("consensus_proof", match a.consensus_proof with
     | none => Json.null
     | some s => Json.str s)]

/-- Modelled from the spec: the encoded per-agent record as one JSON
object. -/
def encodeAgentInfo (a : AgentInfo) : Json :=
  .obj (encodeAgentInfoFields a)

/-- Modelled from the spec: the whole serialized snapshot blob, an object
from label to encoded record. -/
def encodeSnapshot (m : List (String × AgentInfo)) : Json :=
  .obj (m.map fun kv => (kv.1, encodeAgentInfo kv.2))

/-- Modelled from the spec: the intended serialization of an AgentEvent
(spec section 4.4), with the timestamp rendered textually; what
json.dumps(asdict(event)) is meant to produce. -/
def encodeAgentEvent (ev : AgentEvent) : Json :=
  .obj [("session_key", .str ev.session_key),
        ("event_type", .str ev.event_type),
        ("timestamp", .str (isoformat ev.timestamp)),
        ("data", .obj ev.data),
        ("cryptographic_hash", .str ev.cryptographic_hash)]

/-- Modelled from the spec: record_agent_event as spec section 4.4
contracts it — append the serialized event at the head of the per-label
list, then reset the fixed one-hour expiry. -/
def record_agent_event_spec (st : EventStore) (agent_label : String)
    (event : AgentEvent) : EventStore :=
  let event_key := "subctl:events:" ++ agent_label
  expire (lpush st event_key (encodeAgentEvent event)) event_key 3600

/-! ### The dynamic (execution-exact) record construction

AgentInfo(**value) is a Python dataclass call: it validates nothing about
the values.  It raises TypeError only for a missing or an unexpected
keyword, and the loop before it raises ValueError only when a TEXTUAL
last_update fails datetime.fromisoformat (a non-string last_update is not
converted and is stored as given).  A wrong-typed field — say
total_tokens holding a string — constructs a record holding that junk
value, and the decode continues.  The Dynamic namespace embeds exactly
this: a field of the constructed record is a dynamically typed value, and
the only parse failures are the three the execution really has. -/

namespace Dynamic

/-- A value stored in a field of a record built by AgentInfo(**value):
the decoded JSON value exactly as the dict held it, or the datetime that
the explicit fromisoformat conversion produced for a textual
last_update. -/
inductive PyVal where
  | json (j : Json)
  | datetime (t : Nat)

/-- The record AgentInfo(**value) constructs, as executed: ten fields
bound to whatever values the dict held, unvalidated. -/
structure AgentInfo where
  session_key : PyVal
  label : PyVal
  channel : PyVal
  total_tokens : PyVal
  status : PyVal
  last_update : PyVal
  assigned_tickets : PyVal
  package_compliance : PyVal
  custom_code_ratio : PyVal
  consensus_proof : PyVal

/-- A value of the mapping the dynamic decode returns: a constructed
record for a dict value, the raw value otherwise. -/
inductive SnapshotEntry where
  | record (a : AgentInfo)
  | raw (j : Json)

/-- The explicit conversion get_all_agents applies to the last_update
entry of the dict before construction: a string must parse with
fromisoformat (ValueError aborts otherwise); any non-string value is left
untouched. -/
def convert_last_update : Json → Option PyVal
  | .str s => (fromisoformat s).map PyVal.datetime
  | v => some (.json v)

/-- AgentInfo(**value) plus the preceding last_update conversion, as the
program executes it: fails only on a missing key, an unexpected key, or a
malformed textual last_update; every other value is stored as given, with
no type check. -/
def parseAgentInfo (fields : List (String × Json)) : Option AgentInfo :=
  if fields.all (fun kv => agentInfoFieldNames.contains kv.1) then
    (fields.lookup "session_key").bind fun session_key =>
    (fields.lookup "label").bind fun label =>
    (fields.lookup "channel").bind fun channel =>
    (fields.lookup "total_tokens").bind fun total_tokens =>
    (fields.lookup "status").bind fun status =>
    ((fields.lookup "last_update").bind convert_last_update).bind fun last_update =>
    (fields.lookup "assigned_tickets").bind fun assigned_tickets =>
    (fields.lookup "package_compliance").bind fun package_compliance =>
    (fields.lookup "custom_code_ratio").bind fun custom_code_ratio =>
    (fields.lookup "consensus_proof").bind fun consensus_proof =>
    some { session_key := .json session_key, label := .json label,
           channel := .json channel, total_tokens := .json total_tokens,
           status := .json status, last_update,
           assigned_tickets := .json assigned_tickets,
           package_compliance := .json package_compliance,
           custom_code_ratio := .json custom_code_ratio,
           consensus_proof := .json consensus_proof }
  else
    none

/-- The decode loop of get_all_agents over the items of the snapshot
object, with the execution-exact per-entry construction: a raised
TypeError or ValueError aborts everything, any non-dict value is stored
unchanged. -/
def decodeEntries : List (String × Json) → Option (List (String × SnapshotEntry))
  | [] => some []
  | (key, value) :: rest =>
      match value with
      | .obj fs =>
          match parseAgentInfo fs with
          | some a => (decodeEntries rest).map (fun es => (key, .record a) :: es)
          | none => none
      | _ => (decodeEntries rest).map (fun es => (key, .raw value) :: es)

/-- get_all_agents of src/subctl/orchestrator.py over the dynamic
record construction (same branches as the typed embedding above). -/
def get_all_agents : FetchResp → List (String × SnapshotEntry) × List String
  | .err e => ([], [readDiag e.msg])
  | .absent => ([], [])
  | .badPayload emsg => ([], [readDiag emsg])
  | .payload (.obj fields) =>
      match decodeEntries fields with
      | some entries => (entries, [])
      | none => ([], [readDiag decodeErrMsg])
  | .payload _ => ([], [readDiag itemsErrMsg])

/-- get_all_agents of src/subctl.py over the dynamic record
construction: a bare except and the local-cache fallback, no
diagnostic. -/
def legacy_get_all_agents (cache : List (String × SnapshotEntry)) :
    FetchResp → List (String × SnapshotEntry) × List String
  | .err _ => (cache, [])
  | .absent => (cache, [])
  | .badPayload _ => (cache, [])
  | .payload (.obj fields) =>
      match decodeEntries fields with
      | some entries => (entries, [])
      | none => (cache, [])
  | .payload _ => (cache, [])

end Dynamic

/-! ### Concrete sample data, used to instantiate the theorems -/

/-- A concrete well-formed agent record. -/
def sampleAgent : AgentInfo :=
  { session_key := "sess-1", label := "a", channel := "general",
    total_tokens := 1200, status := "working", last_update := 0,
    assigned_tickets := ["T-1"], package_compliance := 1,
    custom_code_ratio := 0, consensus_proof := none }

/-- A concrete agent record whose last_update lies in the future of the
instants the witnesses query at. -/
def futureAgent : AgentInfo :=
  { sampleAgent with last_update := 120 }

/-- A concrete store response: a payload holding the encoded one-agent
snapshot. -/
def sampleResp : FetchResp :=
  .payload (encodeSnapshot [("a", sampleAgent)])

/-- A concrete snapshot object in which the entry at key bad is an object
that fails to parse (it is missing every required field). -/
def badFields : List (String × Json) :=
  [("good", encodeAgentInfo sampleAgent), ("bad", Json.obj [])]

/-- A concrete per-agent object with all ten keys present but two fields
of the wrong type: total_tokens holds a string and custom_code_ratio a
boolean. -/
def wrongTypedAgentFields : List (String × Json) :=
  [("session_key", .str "sess-1"), ("label", .str "junk"),
   ("channel", .str "general"), ("total_tokens", .str "NOT_AN_INT"),
   ("status", .str "working"), ("last_update", .str "0"),
   ("assigned_tickets", .arr []), ("package_compliance", .num 1),
   ("custom_code_ratio", .bool true), ("consensus_proof", .null)]

/-- The record AgentInfo(**value) constructs from
wrongTypedAgentFields: the junk values are stored as given. -/
def junkAgent : Dynamic.AgentInfo :=
  { session_key := .json (.str "sess-1"), label := .json (.str "junk"),
    channel := .json (.str "general"),
    total_tokens := .json (.str "NOT_AN_INT"),
    status := .json (.str "working"), last_update := .datetime 0,
    assigned_tickets := .json (.arr []),
    package_compliance := .json (.num 1),
    custom_code_ratio := .json (.bool true),
    consensus_proof := .json .null }

/-! ## Theorems -/

theorem charDigitVal_digitChar {d : Nat} (hd : d < 10) :
    charDigitVal (digitChar d) = d := by
  interval_cases d <;> rfl

theorem isDigitChar_digitChar {d : Nat} (hd : d < 10) :
    isDigitChar (digitChar d) = true := by
  interval_cases d <;> rfl

theorem fromisoformat_isoformat (t : Nat) : fromisoformat (isoformat t) = some t := by
  rcases eq_or_ne t 0 with rfl | h0
  · rfl
  · have hdig : ∀ d ∈ Nat.digits 10 t, d < 10 := fun d hd =>
      Nat.digits_lt_base (by norm_num) hd
    have hne : Nat.digits 10 t ≠ [] := Nat.digits_ne_nil_iff_ne_zero.mpr h0
    have hdata : (isoformat t).data = ((Nat.digits 10 t).reverse).map digitChar := by
      simp [isoformat, h0, String.mk]
    have hall : ((isoformat t).data).all isDigitChar = true := by
      rw [hdata, List.all_eq_true]
      intro c hc
      rcases List.mem_map.mp hc with ⟨d, hd, rfl⟩
      exact isDigitChar_digitChar (hdig d (List.mem_reverse.mp hd))
    have hnonempty : (isoformat t).data.isEmpty = false := by
      rw [hdata]
      simp only [List.isEmpty_eq_false_iff_exists_mem]
      rcases List.exists_mem_of_ne_nil _ hne with ⟨d, hd⟩
      exact ⟨digitChar d, List.mem_map_of_mem _ (List.mem_reverse.mpr hd)⟩
    have hmap : ∀ l : List Nat, (∀ d ∈ l, d < 10) → (l.map digitChar).map charDigitVal = l := by
      intro l hl
      induction l with
      | nil => rfl
      | cons d l ih =>
        simp only [List.map_cons, List.cons.injEq]
        exact ⟨charDigitVal_digitChar (hl d (List.mem_cons_self d l)),
          ih fun x hx => hl x (List.mem_cons_of_mem _ hx)⟩
    rw [fromisoformat, hnonempty, hall]
    simp only [Bool.not_false, Bool.true_and, if_pos]
    rw [hdata, hmap _ (fun d hd => hdig d (List.mem_reverse.mp hd)),
      List.reverse_reverse, Nat.ofDigits_digits]

theorem strListOf_map_str (l : List String) : strListOf (l.map Json.str) = some l := by
  induction l with
  | nil => rfl
  | cons s l ih => simp [strListOf, Json.asStr, ih]

theorem parseAgentInfo_encode (a : AgentInfo) :
    parseAgentInfo (encodeAgentInfoFields a) = some a := by
  obtain ⟨sk, lb, ch, tt, st, lu, ats, pc, cr, cp⟩ := a
  have hint : Json.asInt (Json.num ((tt : Int) : ℚ)) = some tt := by
    simp [Json.asInt, Rat.den_intCast, Rat.num_intCast]
  have hlist : strListOf (ats.map Json.str) = some ats := strListOf_map_str ats
  have hiso : fromisoformat (isoformat lu) = some lu := fromisoformat_isoformat lu
  cases cp with
  | none =>
    calc parseAgentInfo (encodeAgentInfoFields ⟨sk, lb, ch, tt, st, lu, ats, pc, cr, none⟩)
        = (Json.asInt (Json.num ((tt : Int) : ℚ))).bind (fun total_tokens =>
            (fromisoformat (isoformat lu)).bind (fun last_update =>
            (strListOf (ats.map Json.str)).bind (fun assigned_tickets =>
            some { session_key := sk, label := lb, channel := ch, total_tokens,
                   status := st, last_update, assigned_tickets,
                   package_compliance := pc, custom_code_ratio := cr,
                   consensus_proof := none }))) := rfl
      _ = some ⟨sk, lb, ch, tt, st, lu, ats, pc, cr, none⟩ := by
          rw [hint, hiso, hlist]
          rfl
  | some s =>
    calc parseAgentInfo (encodeAgentInfoFields ⟨sk, lb, ch, tt, st, lu, ats, pc, cr, some s⟩)
        = (Json.asInt (Json.num ((tt : Int) : ℚ))).bind (fun total_tokens =>
            (fromisoformat (isoformat lu)).bind (fun last_update =>
            (strListOf (ats.map Json.str)).bind (fun assigned_tickets =>
            some { session_key := sk, label := lb, channel := ch, total_tokens,
                   status := st, last_update, assigned_tickets,
                   package_compliance := pc, custom_code_ratio := cr,
                   consensus_proof := some s }))) := rfl
      _ = some ⟨sk, lb, ch, tt, st, lu, ats, pc, cr, some s⟩ := by
          rw [hint, hiso, hlist]
          rfl

theorem decodeEntries_cons_obj (k : String) (fs : List (String × Json))
    (rest : List (String × Json)) (a : AgentInfo) (h : parseAgentInfo fs = some a) :
    decodeEntries ((k, Json.obj fs) :: rest)
      = (decodeEntries rest).map (fun es => (k, SnapshotEntry.record a) :: es) := by
  simp [decodeEntries, h]

theorem decodeEntries_encode (m : List (String × AgentInfo)) :
    decodeEntries (m.map fun kv => (kv.1, encodeAgentInfo kv.2))
      = some (m.map fun kv => (kv.1, SnapshotEntry.record kv.2)) := by
  induction m with
  | nil => rfl
  | cons kv m ih =>
    obtain ⟨k, a⟩ := kv
    simp only [List.map_cons]
    rw [show encodeAgentInfo a = Json.obj (encodeAgentInfoFields a) from rfl,
      decodeEntries_cons_obj k _ _ a (parseAgentInfo_encode a), ih]
    rfl

theorem decodeEntries_cons_not_obj (k : String) (v : Json)
    (rest : List (String × Json)) (hv : v.isObj = false) :
    decodeEntries ((k, v) :: rest)
      = (decodeEntries rest).map (fun es => (k, SnapshotEntry.raw v) :: es) := by
  cases v <;> first | rfl | cases hv

theorem decodeEntries_cons_cases (k0 : String) (v0 : Json)
    (rest : List (String × Json)) :
    decodeEntries ((k0, v0) :: rest) = none ∨
    ∃ e, decodeEntries ((k0, v0) :: rest)
        = (decodeEntries rest).map (fun es => (k0, e) :: es) := by
  rcases v0 with _ | b | q | s | xs | fs0
  · exact Or.inr ⟨.raw .null, rfl⟩
  · exact Or.inr ⟨.raw (.bool b), rfl⟩
  · exact Or.inr ⟨.raw (.num q), rfl⟩
  · exact Or.inr ⟨.raw (.str s), rfl⟩
  · exact Or.inr ⟨.raw (.arr xs), rfl⟩
  · rcases hp : parseAgentInfo fs0 with _ | a
    · exact Or.inl (by simp [decodeEntries, hp])
    · exact Or.inr ⟨.record a, by simp [decodeEntries, hp]⟩

theorem dynamic_decodeEntries_cons_cases (k0 : String) (v0 : Json)
    (rest : List (String × Json)) :
    Dynamic.decodeEntries ((k0, v0) :: rest) = none ∨
    ∃ e, Dynamic.decodeEntries ((k0, v0) :: rest)
        = (Dynamic.decodeEntries rest).map (fun es => (k0, e) :: es) := by
  rcases v0 with _ | b | q | s | xs | fs0
  · exact Or.inr ⟨.raw .null, rfl⟩
  · exact Or.inr ⟨.raw (.bool b), rfl⟩
  · exact Or.inr ⟨.raw (.num q), rfl⟩
  · exact Or.inr ⟨.raw (.str s), rfl⟩
  · exact Or.inr ⟨.raw (.arr xs), rfl⟩
  · rcases hp : Dynamic.parseAgentInfo fs0 with _ | a
    · exact Or.inl (by simp [Dynamic.decodeEntries, hp])
    · exact Or.inr ⟨.record a, by simp [Dynamic.decodeEntries, hp]⟩

theorem dynamic_decodeEntries_eq_none {fields : List (String × Json)} {k : String}
    {fs : List (String × Json)} (hmem : (k, Json.obj fs) ∈ fields)
    (hbad : Dynamic.parseAgentInfo fs = none) :
    Dynamic.decodeEntries fields = none := by
  induction fields with
  | nil => cases hmem
  | cons kv rest ih =>
    obtain ⟨k0, v0⟩ := kv
    rcases List.mem_cons.mp hmem with heq | hmem2
    · cases heq
      simp [Dynamic.decodeEntries, hbad]
    · rcases dynamic_decodeEntries_cons_cases k0 v0 rest with hnone | ⟨e, he⟩
      · exact hnone
      · rw [he, ih hmem2]
        rfl

theorem decodeEntries_raw_mem {fields : List (String × Json)} {entries : Snapshot}
    (hdec : decodeEntries fields = some entries) {k : String} {v : Json}
    (hmem : (k, v) ∈ fields) (hraw : v.isObj = false) :
    (k, SnapshotEntry.raw v) ∈ entries := by
  induction fields generalizing entries with
  | nil => cases hmem
  | cons kv rest ih =>
    obtain ⟨k0, v0⟩ := kv
    rcases List.mem_cons.mp hmem with heq | hmem2
    · cases heq
      rw [decodeEntries_cons_not_obj _ _ _ hraw] at hdec
      rcases hd : decodeEntries rest with _ | es <;> rw [hd] at hdec
      · cases hdec
      · simp only [Option.map_some'] at hdec
        cases hdec
        exact List.mem_cons_self _ _
    · rcases decodeEntries_cons_cases k0 v0 rest with hnone | ⟨e, he⟩
      · rw [hnone] at hdec
        cases hdec
      · rw [he] at hdec
        rcases hd : decodeEntries rest with _ | es <;> rw [hd] at hdec
        · cases hdec
        · simp only [Option.map_some'] at hdec
          cases hdec
          exact List.mem_cons_of_mem _ (ih hd hmem2)

theorem Legacy.runCalls_id (s : Legacy.State) (calls : List Legacy.Call) :
    Legacy.runCalls s calls = s := by
  induction calls generalizing s with
  | nil => rfl
  | cons c calls ih => cases c <;> exact ih s

theorem sampleResp_get_all :
    Orchestrator.get_all_agents sampleResp
      = ([("a", SnapshotEntry.record sampleAgent)], []) := by
  have h := decodeEntries_encode [("a", sampleAgent)]
  simp only [List.map_cons, List.map_nil] at h
  simp [sampleResp, encodeSnapshot, Orchestrator.get_all_agents, h]

/-- Claim C1: for every snapshot S, instant now and threshold T, the
active-agent filter get_active_agents returns a sub-mapping of S; every
entry it returns is an agent record whose age, (now - last_update)/60
minutes, is at most T; and the threshold defaults to 10 minutes when not
given. -/
theorem claim_C1_active_is_recent_submapping (S : Snapshot) (now : Nat) (T : Int) :
    (∀ kv, kv ∈ Orchestrator.get_active_agents S now T → kv ∈ S) ∧
    (∀ l e, (l, e) ∈ Orchestrator.get_active_agents S now T →
      ∃ a, e = SnapshotEntry.record a ∧
        ((now : ℚ) - (a.last_update : ℚ)) / 60 ≤ (T : ℚ)) ∧
    Orchestrator.get_active_agents S now = Orchestrator.get_active_agents S now 10 := by
  refine ⟨fun kv h => (List.mem_filter.mp h).1, fun l e h => ?_, rfl⟩
  obtain ⟨hmem, hcond⟩ := List.mem_filter.mp h
  cases e with
  | record a =>
    refine ⟨a, rfl, ?_⟩
    exact of_decide_eq_true hcond
  | raw j => cases hcond

theorem claim_C1_wit :
    ("a", SnapshotEntry.record sampleAgent) ∈ [("a", SnapshotEntry.record sampleAgent)] ∧
    ∃ a, SnapshotEntry.record sampleAgent = SnapshotEntry.record a ∧
      ((300 : ℚ) - (a.last_update : ℚ)) / 60 ≤ ((10 : Int) : ℚ) := by
  have h := claim_C1_active_is_recent_submapping
    [("a", SnapshotEntry.record sampleAgent)] 300 10
  have hmem : ("a", SnapshotEntry.record sampleAgent)
      ∈ Orchestrator.get_active_agents [("a", SnapshotEntry.record sampleAgent)] 300 10 := by
    apply List.mem_filter.mpr
    refine ⟨List.mem_singleton_self _, ?_⟩
    show decide (((300 : ℚ) - ((sampleAgent.last_update : Nat) : ℚ)) / 60 ≤ ((10 : Int) : ℚ))
      = true
    rw [decide_eq_true_eq]
    norm_num [sampleAgent]
  exact ⟨h.1 _ hmem, h.2.1 "a" _ hmem⟩

/-- Claim C5: a record whose last_update lies in the future of the query
instant is included in the active set: its age is negative (no clamp to
zero), and a negative age passes the comparison against every
non-negative threshold. -/
theorem claim_C5_future_record_is_active (S : Snapshot) (now : Nat) (T : Int)
    (l : String) (a : AgentInfo) (hmem : (l, SnapshotEntry.record a) ∈ S)
    (hfuture : now < a.last_update) (hT : 0 ≤ T) :
    (l, SnapshotEntry.record a) ∈ Orchestrator.get_active_agents S now T ∧
    ((now : ℚ) - (a.last_update : ℚ)) / 60 < 0 := by
  have hlt : (now : ℚ) < (a.last_update : ℚ) := by exact_mod_cast hfuture
  have hneg : ((now : ℚ) - (a.last_update : ℚ)) / 60 < 0 :=
    div_neg_of_neg_of_pos (by linarith) (by norm_num)
  refine ⟨List.mem_filter.mpr ⟨hmem, ?_⟩, hneg⟩
  show decide (((now : ℚ) - (a.last_update : ℚ)) / 60 ≤ (T : ℚ)) = true
  rw [decide_eq_true_eq]
  have hT0 : (0 : ℚ) ≤ (T : ℚ) := by exact_mod_cast hT
  linarith

theorem claim_C5_wit :
    ("a", SnapshotEntry.record futureAgent)
      ∈ Orchestrator.get_active_agents [("a", SnapshotEntry.record futureAgent)] 0 0 ∧
    ((0 : ℚ) - (futureAgent.last_update : ℚ)) / 60 < 0 :=
  claim_C5_future_record_is_active [("a", SnapshotEntry.record futureAgent)] 0 0 "a"
    futureAgent (List.mem_singleton_self _) (by norm_num [futureAgent, sampleAgent])
    (by norm_num)

/-- Claim C2, amended: on every store-level failure (a raised store error
or a payload json.loads rejects) both get_all_agents variants return the
empty mapping rather than raising; the packaged orchestrator variant
prints exactly one diagnostic line, but the legacy src/subctl.py variant
suppresses the failure with a bare except and prints none (it returns its
local cache, which is empty after any sequence of method calls). -/
theorem claim_C2_fetch_failure_empty (e : StoreErr) (emsg : String)
    (calls : List Legacy.Call) :
    Orchestrator.get_all_agents (.err e) = ([], [readDiag e.msg]) ∧
    Orchestrator.get_all_agents (.badPayload emsg) = ([], [readDiag emsg]) ∧
    (Orchestrator.get_all_agents (.err e)).2.length = 1 ∧
    (Orchestrator.get_all_agents (.badPayload emsg)).2.length = 1 ∧
    (Legacy.runCalls Legacy.init calls).agents = [] ∧
    Legacy.get_all_agents (Legacy.runCalls Legacy.init calls).agents (.err e)
      = ([], []) ∧
    Legacy.get_all_agents (Legacy.runCalls Legacy.init calls).agents (.badPayload emsg)
      = ([], []) := by
  rw [Legacy.runCalls_id]
  exact ⟨rfl, rfl, rfl, rfl, rfl, rfl, rfl⟩

/-- Claim C2, counterexample to the claim as stated: when the store
connection is refused, the legacy get_all_agents variant of src/subctl.py
emits no diagnostic at all, not exactly one. -/
theorem claim_C2_cex :
    (Legacy.get_all_agents Legacy.init.agents (.err .connectionRefused)).2.length ≠ 1 := by
  decide

/-- Claim C3: contrary to the claim, record_agent_event never reaches the
store: in src/subctl/orchestrator.py the serialization raises NameError
(asdict is not imported there), and in src/subctl.py it raises TypeError
(json.dumps cannot serialize the datetime timestamp); both variants catch
the raise, print exactly one diagnostic and return without aborting the
caller, leaving the per-label list and its expiry untouched.  The
spec-contracted behaviour (push at the head, then reset the expiry to
3600 seconds) holds of the spec-modelled record_agent_event_spec. -/
theorem claim_C3_record_event_never_writes (st : EventStore) (agent_label : String)
    (event : AgentEvent) :
    Orchestrator.record_agent_event st agent_label event
      = (st, ["[red]Error recording event: name asdict is not defined[/red]"]) ∧
    Legacy.record_agent_event st agent_label event
      = (st,
         ["[red]Error recording event: Object of type datetime is not JSON serializable[/red]"]) ∧
    (Orchestrator.record_agent_event st agent_label event).1.lists
        ("subctl:events:" ++ agent_label)
      = st.lists ("subctl:events:" ++ agent_label) ∧
    (Orchestrator.record_agent_event st agent_label event).1.ttl
        ("subctl:events:" ++ agent_label)
      = st.ttl ("subctl:events:" ++ agent_label) ∧
    (record_agent_event_spec st agent_label event).lists
        ("subctl:events:" ++ agent_label)
      = encodeAgentEvent event :: st.lists ("subctl:events:" ++ agent_label) ∧
    (record_agent_event_spec st agent_label event).ttl
        ("subctl:events:" ++ agent_label)
      = some 3600 := by
  refine ⟨rfl, rfl, rfl, rfl, ?_, ?_⟩ <;>
    simp [record_agent_event_spec, lpush, expire]

/-- Claim C4, amended: a per-agent entry that really fails to parse — a
missing required field, an unexpected extra field, or a malformed
textual last_update — aborts the whole decode: get_all_agents returns
the empty mapping (with one diagnostic in the packaged variant,
silently in the legacy variant), never a partial result with the
well-formed entries.  A wrong-typed field is not such a failure:
AgentInfo(**value) validates nothing, so the record is constructed with
the mistyped value and the decode continues (the counterexample
exhibits this). -/
theorem claim_C4_parse_failure_aborts (fields : List (String × Json)) (k : String)
    (fs : List (String × Json)) (hmem : (k, Json.obj fs) ∈ fields)
    (hbad : Dynamic.parseAgentInfo fs = none) :
    Dynamic.get_all_agents (.payload (.obj fields))
      = ([], [readDiag decodeErrMsg]) ∧
    Dynamic.legacy_get_all_agents [] (.payload (.obj fields)) = ([], []) := by
  have h := dynamic_decodeEntries_eq_none hmem hbad
  constructor <;>
    simp [Dynamic.get_all_agents, Dynamic.legacy_get_all_agents, h]

theorem claim_C4_wit :
    Dynamic.get_all_agents (.payload (.obj badFields))
      = ([], [readDiag decodeErrMsg]) ∧
    Dynamic.legacy_get_all_agents [] (.payload (.obj badFields)) = ([], []) :=
  claim_C4_parse_failure_aborts badFields "bad" []
    (by simp [badFields]) rfl

/-- Claim C4, counterexample to the claim as stated: a per-agent entry
with wrong-typed fields (total_tokens a string, custom_code_ratio a
boolean) does not abort the decode to an empty mapping — get_all_agents
returns a full mapping containing the junk record, because
AgentInfo(**value) performs no type validation. -/
theorem claim_C4_cex :
    Dynamic.get_all_agents (.payload (.obj [("junk", .obj wrongTypedAgentFields)]))
      = ([("junk", Dynamic.SnapshotEntry.record junkAgent)], []) ∧
    ¬ (Dynamic.get_all_agents
        (.payload (.obj [("junk", .obj wrongTypedAgentFields)]))).1 = [] := by
  have he : Dynamic.get_all_agents
      (.payload (.obj [("junk", .obj wrongTypedAgentFields)]))
      = ([("junk", Dynamic.SnapshotEntry.record junkAgent)], []) := rfl
  refine ⟨he, ?_⟩
  rw [he]
  simp

/-- Claim C6: get_agent_info is a lookup in the full unfiltered snapshot,
so it finds an agent however stale its last_update is (no recency
condition); for a label absent from the snapshot it returns none and the
inspect branch prints the not-found message instead of raising. -/
theorem claim_C6_inspect_full_snapshot (resp : FetchResp) (agent_label : String)
    (now : Nat) (T : Int) :
    (Orchestrator.get_agent_info resp agent_label
        = ((Orchestrator.get_all_agents resp).1).lookup agent_label) ∧
    (∀ a, ((Orchestrator.get_all_agents resp).1).lookup agent_label
          = some (SnapshotEntry.record a) →
        ¬ ((now : ℚ) - (a.last_update : ℚ)) / 60 ≤ (T : ℚ) →
        Orchestrator.get_agent_info resp agent_label
          = some (SnapshotEntry.record a)) ∧
    (((Orchestrator.get_all_agents resp).1).lookup agent_label = none →
        Orchestrator.get_agent_info resp agent_label = none ∧
        inspect_output resp agent_label = .ok [notFoundMsg agent_label]) := by
  refine ⟨rfl, fun a h _ => h, fun h => ⟨h, ?_⟩⟩
  have hg : Orchestrator.get_agent_info resp agent_label = none := h
  simp [inspect_output, hg]

theorem claim_C6_wit :
    Orchestrator.get_agent_info sampleResp "a" = some (SnapshotEntry.record sampleAgent) ∧
    ¬ ((100000 : ℚ) - (sampleAgent.last_update : ℚ)) / 60 ≤ ((10 : Int) : ℚ) ∧
    Orchestrator.get_agent_info sampleResp "zz" = none ∧
    inspect_output sampleResp "zz" = .ok [notFoundMsg "zz"] := by
  have hstale : ¬ ((100000 : ℚ) - (sampleAgent.last_update : ℚ)) / 60 ≤ ((10 : Int) : ℚ) := by
    norm_num [sampleAgent]
  have hlook : ((Orchestrator.get_all_agents sampleResp).1).lookup "a"
      = some (SnapshotEntry.record sampleAgent) := by
    rw [sampleResp_get_all]
    rfl
  have hnone : ((Orchestrator.get_all_agents sampleResp).1).lookup "zz" = none := by
    rw [sampleResp_get_all]
    rfl
  have h1 := (claim_C6_inspect_full_snapshot sampleResp "a" 100000 10).2.1 sampleAgent
    hlook hstale
  have h2 := (claim_C6_inspect_full_snapshot sampleResp "zz" 0 10).2.2 hnone
  exact ⟨h1, hstale, h2.1, h2.2⟩

/-- Claim C7: the rendered package-compliance cell is severity-banded by
the threshold pair (0.8, 0.95): below 0.8 the cell is wrapped severe
(red), in [0.8, 0.95) warning (yellow), at or above 0.95 neutral; in
particular 0.5 renders severe, 0.9 warning and 0.99 neutral. -/
theorem claim_C7_compliance_banding (c : ℚ) (base : String) :
    (c < 0.8 → complianceBand c = .severe) ∧
    (0.8 ≤ c → c < 0.95 → complianceBand c = .warning) ∧
    (0.95 ≤ c → complianceBand c = .neutral) ∧
    compliance_markup c base = (complianceBand c).wrap base ∧
    complianceBand 0.5 = .severe ∧
    complianceBand 0.9 = .warning ∧
    complianceBand 0.99 = .neutral := by
  refine ⟨?_, ?_, ?_, ?_, by norm_num [complianceBand], by norm_num [complianceBand],
    by norm_num [complianceBand]⟩
  · intro h
    simp [complianceBand, h]
  · intro h1 h2
    rw [complianceBand, if_neg (not_lt.mpr h1), if_pos h2]
  · intro h
    rw [complianceBand, if_neg (not_lt.mpr (le_trans (by norm_num) h)),
      if_neg (not_lt.mpr h)]
  · rw [compliance_markup, complianceBand]
    split_ifs <;> rfl

theorem claim_C7_wit :
    complianceBand 0.5 = .severe ∧ complianceBand 0.9 = .warning ∧
    complianceBand 0.99 = .neutral ∧
    compliance_markup 0.5 "50.0%" = "[red]50.0%[/red]" := by
  have h := claim_C7_compliance_banding 0.5 "50.0%"
  refine ⟨h.2.2.2.2.1, h.2.2.2.2.2.1, h.2.2.2.2.2.2, ?_⟩
  rw [h.2.2.2.1, h.2.2.2.2.1]
  rfl

/-- Claim C8: decoding the serialized form of any label-to-record mapping
yields back exactly that mapping, every field of every record (the
textual last_update at seconds precision included) preserved; so the
decode of get_all_agents and the producer-side encoding round-trip. -/
theorem claim_C8_roundtrip (m : List (String × AgentInfo)) :
    decodeEntries (m.map fun kv => (kv.1, encodeAgentInfo kv.2))
      = some (m.map fun kv => (kv.1, SnapshotEntry.record kv.2)) ∧
    Orchestrator.get_all_agents (.payload (encodeSnapshot m))
      = (m.map fun kv => (kv.1, SnapshotEntry.record kv.2), []) := by
  have h := decodeEntries_encode m
  exact ⟨h, by simp [Orchestrator.get_all_agents, encodeSnapshot, h]⟩

/-- Claim C9: a label mapped to a non-object JSON value is placed raw and
unchanged into the mapping get_all_agents returns (whenever the decode
succeeds), and get_active_agents silently excludes every such raw value
from the active set through its isinstance check. -/
theorem claim_C9_raw_values (fields : List (String × Json)) (entries : Snapshot)
    (k : String) (v : Json) (S : Snapshot) (now : Nat) (T : Int)
    (l : String) (j : Json) :
    (decodeEntries fields = some entries → (k, v) ∈ fields → v.isObj = false →
      (k, SnapshotEntry.raw v) ∈ entries) ∧
    (l, SnapshotEntry.raw j) ∉ Orchestrator.get_active_agents S now T := by
  refine ⟨fun hdec hmem hraw => decodeEntries_raw_mem hdec hmem hraw, fun h => ?_⟩
  exact absurd (List.mem_filter.mp h).2 (by simp)

theorem claim_C9_wit :
    ("x", SnapshotEntry.raw (Json.num 5)) ∈ [("x", SnapshotEntry.raw (Json.num 5))] ∧
    ("x", SnapshotEntry.raw (Json.num 5))
      ∉ Orchestrator.get_active_agents [("x", SnapshotEntry.raw (Json.num 5))] 0 10 := by
  have h := claim_C9_raw_values [("x", Json.num 5)] [("x", SnapshotEntry.raw (Json.num 5))]
    "x" (Json.num 5) [("x", SnapshotEntry.raw (Json.num 5))] 0 10 "x" (Json.num 5)
  exact ⟨h.1 rfl (List.mem_singleton_self _) rfl, h.2⟩

/-- Claim C10: the two get_all_agents variants return equal mappings for
every store response, failures included: the legacy variant falls back to
its local cache self.agents, but that cache is empty at construction and
no method of the legacy class ever writes it, so both variants yield the
empty mapping on failure and the identical decode on success. -/
theorem claim_C10_variants_agree (calls : List Legacy.Call) (resp : FetchResp) :
    (Legacy.runCalls Legacy.init calls).agents = [] ∧
    (Legacy.get_all_agents (Legacy.runCalls Legacy.init calls).agents resp).1
      = (Orchestrator.get_all_agents resp).1 := by
  rw [Legacy.runCalls_id, show Legacy.init.agents = ([] : Snapshot) from rfl]
  refine ⟨rfl, ?_⟩
  cases resp with
  | err e => rfl
  | absent => rfl
  | badPayload emsg => rfl
  | payload j =>
    cases j with
    | obj fields =>
      rcases hd : decodeEntries fields with _ | es <;>
        simp [Legacy.get_all_agents, Orchestrator.get_all_agents, hd]
    | null => rfl
    | bool b => rfl
    | num q => rfl
    | str s => rfl
    | arr xs => rfl

end Subctl
